import Mathlib

/-!
Shallow embedding of the VIIRS QGIS processing tool
(`viirs_query_tool.py`, class `VIIRSQuery`).

Conventions of the embedding:
* Python/JSON values are modelled by the inductive `Json`; Python `None`
  is `Json.null`.  `dict.get(k)` is `Json.get`; on a non-dict receiver the
  model returns `Json.null` (in Python this would raise `AttributeError`;
  all receivers in the tool come from the service's documented dict-shaped
  schema, and theorems that quantify over raw values restrict themselves
  to object-shaped inputs where the distinction could matter).
* Python numbers (ints and floats) are modelled as exact rationals.
  `round(x, 2)` is modelled as exact rounding of a rational to 2 decimal
  places with ties rounded half-up; the float subtleties of Python's
  `round` are outside the model (for the concrete value exercised by the
  spec, `12.345`, the double actually stored is slightly above the tie, so
  CPython also yields `12.35`, matching the model).
* `float(str)` is modelled for plain decimal literals (optional sign,
  digits, optional fraction part); exotic forms (exponents, `inf`, `nan`,
  underscores) are not modelled and map to "not convertible".
* The network is an oracle (`Env`) giving the HTTP status and JSON body of
  the catalog request and of each analyse request; the run is a pure
  function from the configuration and the oracle to the list of issued
  requests together with either an error or the emitted output rows.
* QGIS plumbing (layer handles, sinks, CRS transforms, curve
  segmentization) carries no claim; a feature is abstracted to its id,
  its optional join attribute, whether its geometry is empty, and the
  serialized EPSG:4326 GeoJSON string that the analyse requests carry.
-/

namespace VIIRS

/-- JSON/Python values as delivered by `requests.Response.json()`. -/
inductive Json where
  | null : Json
  | bool (b : Bool) : Json
  | num (q : ℚ) : Json
  | str (s : String) : Json
  | arr (elems : List Json) : Json
  | obj (entries : List (String × Json)) : Json

/-- Python truthiness (`bool(x)`): `None`, `False`, `0`, `""`, `[]`, `\x7b\x7d`
are falsy, everything else truthy. -/
def truthy : Json → Bool
  | Json.null => false
  | Json.bool b => b
  | Json.num q => decide (q ≠ 0)
  | Json.str s => decide (s ≠ "")
  | Json.arr [] => false
  | Json.arr (_ :: _) => true
  | Json.obj [] => false
  | Json.obj (_ :: _) => true

/-- Python `a or b`. -/
def pyOr (a b : Json) : Json := if truthy a then a else b

/-- `x is None` test. -/
def Json.isNull : Json → Bool
  | Json.null => true
  | _ => false

/-- Python `d.get(k)` (returning `None` when the key is absent).  The
receivers in the tool are dicts coming from the service's JSON schema;
the model returns `Json.null` on non-dict receivers. -/
def Json.get (j : Json) (k : String) : Json :=
  match j with
  | Json.obj kvs => (kvs.lookup k).getD Json.null
  | _ => Json.null

/-- Python `str(x)`.  Exact for strings, `None`, booleans and integers
(the only cases the tool's data can reach for ids and dates); the
rendering of non-integer numbers and containers is approximated. -/
def pyStr : Json → String
  | Json.null => "None"
  | Json.bool true => "True"
  | Json.bool false => "False"
  | Json.num q => if q.den = 1 then toString q.num else toString q
  | Json.str s => s
  | Json.arr _ => "<list>"
  | Json.obj _ => "<dict>"

/-- Python `str(x or "")`, the idiom used throughout the source. -/
def pyStrOrEmpty (j : Json) : String := pyStr (pyOr j (Json.str ""))

/-- Value of a digit string (helper for `int()`/`float()` models). -/
def digitsToNat (cs : List Char) : Nat :=
  cs.foldl (fun a c => a * 10 + (c.toNat - 48)) 0

/-- Leading/trailing-whitespace removal (Python's `str.strip()` and the
whitespace tolerance of `int()`/`float()`). -/
def trimChars (cs : List Char) : List Char :=
  ((cs.dropWhile Char.isWhitespace).reverse.dropWhile Char.isWhitespace).reverse

/-- Python `s.strip()`. -/
def pyStrip (s : String) : String := String.mk (trimChars s.toList)

/-- Python `int(s)` on a string: optional sign then decimal digits. -/
def pyToInt (s : String) : Option Int :=
  let cs := trimChars s.toList
  match cs with
  | '+' :: rest =>
      if rest ≠ [] ∧ rest.all Char.isDigit then some (digitsToNat rest) else none
  | '-' :: rest =>
      if rest ≠ [] ∧ rest.all Char.isDigit then some (-(digitsToNat rest : Int)) else none
  | _ =>
      if cs ≠ [] ∧ cs.all Char.isDigit then some (digitsToNat cs) else none

/-- Unsigned decimal literal, `digits[.digits]`, as an exact rational
(`ip.fr` is `(ip * 10^|fr| + fr) / 10^|fr|`). -/
def parseDecimalCore (cs : List Char) : Option ℚ :=
  let ip := cs.takeWhile Char.isDigit
  let rest := cs.dropWhile Char.isDigit
  match rest with
  | [] => if ip = [] then none else some (mkRat (digitsToNat ip) 1)
  | '.' :: fr =>
      if (ip ≠ [] ∨ fr ≠ []) ∧ fr.all Char.isDigit then
        some (mkRat (digitsToNat ip * 10 ^ fr.length + digitsToNat fr) (10 ^ fr.length))
      else none
  | _ => none

/-- Python `float(x)`: numbers pass through, booleans become 0/1, plain
decimal strings are parsed; `None`, lists and dicts raise (modelled as
`none`). -/
def pyToFloat : Json → Option ℚ
  | Json.num q => some q
  | Json.bool b => some (if b then 1 else 0)
  | Json.str s =>
      let cs := trimChars s.toList
      match cs with
      | '+' :: r => parseDecimalCore r
      | '-' :: r => (parseDecimalCore r).map (fun q => -q)
      | _ => parseDecimalCore cs
  | _ => none

/-- Exact rounding of a rational to 2 decimal places with ties rounded
half-up: for `q = n/d` this is `⌊(100*q) + 1/2⌋ / 100`, computed on the
integer level as `fdiv (200*n + d) (2*d) / 100` (see
`roundTo2_eq_round`). -/
def roundTo2 (q : ℚ) : ℚ := mkRat ((200 * q.num + (q.den : ℤ)).fdiv (2 * (q.den : ℤ))) 100

/-- `VIIRSQuery._round2` (source lines 167-174): `None` stays `None`,
otherwise `round(float(value), 2)`, with any conversion failure caught
and turned into `None`. -/
def _round2 (v : Json) : Option ℚ :=
  if v.isNull then none
  else
    match pyToFloat v with
    | some q => some (roundTo2 q)
    | none => none

/-- `VIIRSQuery._chunk_list` (source lines 162-165): the Python generator
`for i in range(0, len(lst), size): yield lst[i:i+size]`.  `range`
enumerates the `⌈len/size⌉` start offsets `i*size`, and `lst[i:i+size]`
is `take size` after `drop (i*size)`.  The call site fixes `size = 50`
(a `size` of 0 raises in Python and is outside the model). -/
def _chunk_list (lst : List α) (size : Nat) : List (List α) :=
  (List.range ((lst.length + size - 1) / size)).map
    (fun i => (lst.drop (i * size)).take size)

/-- `VIIRSQuery._yyyymm_from_iso` (source lines 176-185): `-1` unless the
string has at least 7 characters and positions 0-3 and 5-6 both parse as
integers, in which case `year*100 + month`. -/
def _yyyymm_from_iso (s : String) : Int :=
  if s = "" ∨ s.length < 7 then -1
  else
    match pyToInt (String.mk (s.toList.take 4)),
          pyToInt (String.mk ((s.toList.drop 5).take 2)) with
    | some y, some m => y * 100 + m
    | _, _ => -1

/-- `VIIRSQuery._date_only` (source lines 187-192). -/
def _date_only (s : String) : String :=
  if s = "" then "" else if 10 ≤ s.length then String.mk (s.toList.take 10) else s

/-- `VIIRSQuery._pixel_value_from_statistics` (source lines 194-204):
prefer `histogram[0].bin`, falling back to `mean`. -/
def _pixel_value_from_statistics (stats : Json) : Json :=
  if truthy stats = false then Json.null
  else
    match Json.get stats "histogram" with
    | Json.arr (h :: _) =>
        match pyOr h (Json.obj []) with
        | Json.obj kvs =>
            if (Json.get (Json.obj kvs) "bin").isNull = false then
              Json.get (Json.obj kvs) "bin"
            else Json.get stats "mean"
        | _ => Json.get stats "mean"
    | _ => Json.get stats "mean"

/-- Class constant `MAX_SELECTED` (source line 54). -/
def MAX_SELECTED : Nat := 5

/-- Class constant `FIRST_YEAR` (source line 55). -/
def FIRST_YEAR : Nat := 2018

/-- Class constant `MAX_TIMESTAMPS_PER_REQUEST` (source line 56). -/
def MAX_TIMESTAMPS_PER_REQUEST : Nat := 50

/-- Class constant `DATASETS` (source lines 58-63). -/
def DATASETS : List (String × String) :=
  [("LSTD", "5510ddc9-57fb-4014-b751-9da99fa56ae8"),
   ("LSTN", "7d5e1d57-7d0f-4a31-9a1c-a86d7245bd20"),
   ("NDVI", "4b276542-bdea-44c1-a206-36ed14531eee"),
   ("EVI", "e933ceba-c12e-4e1f-8171-2c02706cea5f")]

/-- Descriptive metadata stored in `ts_info` for one timestamp
(source lines 271-275). -/
structure TsMeta where
  date_from : String
  date_to : String
  description : String
deriving DecidableEq

/-- The catalog-parsing loop of `processAlgorithm` (source lines 255-275):
returns `ts_ids` (order-preserving) and `ts_info` (association list in
source order; Python dict assignment overwrites, so lookups take the last
binding, see `dictGetLast`). -/
def parseTimestamps (sk ek : Int) : List Json → List String × List (String × TsMeta)
  | [] => ([], [])
  | ts :: rest =>
    let tsIdJ := Json.get ts "id"
    let dateNode := pyOr (Json.get ts "date") (Json.obj [])
    let dateFromIso := pyStrOrEmpty (Json.get dateNode "from")
    let dateToIso := pyStrOrEmpty (Json.get dateNode "to")
    let desc := pyStrOrEmpty (Json.get ts "description")
    let key := _yyyymm_from_iso dateFromIso
    let tail := parseTimestamps sk ek rest
    if key = -1 ∨ tsIdJ.isNull then tail
    else if sk ≤ key ∧ key ≤ ek then
      (pyStr tsIdJ :: tail.1,
       (pyStr tsIdJ, ⟨_date_only dateFromIso, _date_only dateToIso, desc⟩) :: tail.2)
    else tail

/-- Python `ts_info.get(ts_id, \x7b\x7d)`: the dict built by repeated
assignment returns the value of the last assignment for a key. -/
def dictGetLast (l : List (String × TsMeta)) (k : String) : Option TsMeta :=
  l.foldl (fun acc p => if p.1 = k then some p.2 else acc) none

/-- `(data.get("raster") or \x7b\x7d).get("timestamps") or []`
(source line 251). -/
def timestampsVal (data : Json) : Json :=
  pyOr (Json.get (pyOr (Json.get data "raster") (Json.obj [])) "timestamps") (Json.arr [])

/-- The HTTP requests a run can issue. -/
inductive Request where
  | catalog : Request
  | analyse (geometry : String) (timestampIds : List String) : Request
deriving DecidableEq

/-- The fatal error kinds of the run, one per `QgsProcessingException`
site of `processAlgorithm` (spec names in comments). -/
inductive VErr where
  | invalidSelection (n : Nat) : VErr
  | invalidRange : VErr
  | catalogFetch (status : Nat) : VErr
  | noTimestamps : VErr
  | emptyRange : VErr
  | analyseFailed (status : Nat) : VErr
  | malformedResponse : VErr
deriving DecidableEq

/-- One output row as pushed to the sink (source lines 383-409):
the eight shared columns plus the geometry-dependent value columns
(`[pixel_value]` for points, the six zonal statistics otherwise);
a numeric column holds `none` where the code stores SQL NULL. -/
structure Row where
  input_fid : Int
  input_id : String
  dataset : String
  timestampId : String
  date_from : String
  date_to : String
  description : String
  hasData : Nat
  values : List (Option ℚ)
deriving DecidableEq

/-- One selected input feature, abstracted to what the run reads from it:
`f.id()`, `f.attribute(id_field)`, whether the geometry is `None`/empty,
and the serialized EPSG:4326 GeoJSON string sent to the service
(the CRS transform and curve segmentization of source lines 313-348 are
absorbed into `geomJson`; no claim concerns them). -/
structure Feature where
  fid : Int
  idAttr : Json
  geomEmpty : Bool
  geomJson : String

/-- The network oracle: status and body of the catalog request and of
each analyse request (keyed by the geometry string and the batch). -/
structure Env where
  catalogStatus : Nat
  catalogBody : Json
  analyseStatus : String → List String → Nat
  analyseBody : String → List String → Json

/-- Run configuration: the parameter values after QGIS resolution.
`startKey`/`endKey` are the `year*100 + month` range keys of source
lines 239-240. -/
structure RunCfg where
  selected : List Feature
  idField : String
  isPointInput : Bool
  datasetName : String
  startKey : Int
  endKey : Int

/-- `str((item.get("timestamp") or \x7b\x7d).get("id") or "")`
(source line 368). -/
def tsIdOf (item : Json) : String :=
  pyStr (pyOr (Json.get (pyOr (Json.get item "timestamp") (Json.obj [])) "id") (Json.str ""))

/-- `(res.get("band") or \x7b\x7d).get("number") == 1` (source line 379);
Python `== 1` is true for the number 1 and for `True`. -/
def isBand1 (res : Json) : Bool :=
  match Json.get (pyOr (Json.get res "band") (Json.obj [])) "number" with
  | Json.num q => decide (q = 1)
  | Json.bool b => b
  | _ => false

/-- The band-1 scan of source lines 377-381: first matching entry wins,
its `statistics` (defaulted to an empty dict) is kept; `Json.null` models
the Python `stats = None` when no band-1 entry exists. -/
def findBand1 : List Json → Json
  | [] => Json.null
  | res :: rest =>
      if isBand1 res then pyOr (Json.get res "statistics") (Json.obj [])
      else findBand1 rest

/-- Elements of a JSON array (the `for res in item.get("result") or []`
iteration; a truthy non-list `result` would raise in Python and is
outside the model). -/
def asList : Json → List Json
  | Json.arr l => l
  | _ => []

def band1Stats (item : Json) : Json :=
  findBand1 (asList (pyOr (Json.get item "result") (Json.arr [])))

/-- `stats.get(k) if stats else None` (source lines 401-406): both the
Python `None` and the empty dict are falsy. -/
def statGet (stats : Json) (k : String) : Json :=
  if truthy stats then Json.get stats k else Json.null

/-- Construction of one output feature from one analyse-response item
(source lines 367-409). -/
def buildRow (isPoint : Bool) (fid : Int) (inputId ds : String)
    (tsInfo : List (String × TsMeta)) (item : Json) : Row :=
  let tsId := tsIdOf item
  let hd := truthy (Json.get item "hasData")
  let hasData : Nat := if hd then 1 else 0
  let dateFrom := match dictGetLast tsInfo tsId with
    | some m => m.date_from
    | none => ""
  let dateTo := match dictGetLast tsInfo tsId with
    | some m => m.date_to
    | none => ""
  let desc := match dictGetLast tsInfo tsId with
    | some m => m.description
    | none => ""
  let stats := band1Stats item
  { input_fid := fid, input_id := inputId, dataset := ds, timestampId := tsId,
    date_from := dateFrom, date_to := dateTo, description := desc, hasData := hasData,
    values :=
      if isPoint then
        [if hd then _round2 (_pixel_value_from_statistics stats) else none]
      else
        [_round2 (statGet stats "min"),
         _round2 (statGet stats "max"),
         _round2 (statGet stats "mean"),
         _round2 (statGet stats "median"),
         _round2 (statGet stats "deviation"),
         _round2 (statGet stats "sum")] }

/-- The inner batch loop for one feature (source lines 350-409): one
analyse request per batch; non-200 status or a non-list body aborts the
run, otherwise each response item yields one row. -/
def runBatches (env : Env) (geom : String) (mk : Json → Row) :
    List (List String) → List Request × Except VErr (List Row)
  | [] => ([], Except.ok [])
  | b :: rest =>
    if env.analyseStatus geom b ≠ 200 then
      ([Request.analyse geom b], Except.error (VErr.analyseFailed (env.analyseStatus geom b)))
    else
      match env.analyseBody geom b with
      | Json.arr items =>
          (Request.analyse geom b :: (runBatches env geom mk rest).1,
           (runBatches env geom mk rest).2.map (fun rows => items.map mk ++ rows))
      | _ => ([Request.analyse geom b], Except.error VErr.malformedResponse)

/-- `input_id_value` for one feature (source lines 327-330): the
stringified join attribute when an id field is set, else empty. -/
def inputIdOf (idf : String) (f : Feature) : String :=
  if idf ≠ "" then (if f.idAttr.isNull then "" else pyStr f.idAttr) else ""

/-- The outer feature loop (source lines 325-409): features with empty
geometry are skipped (zero requests, zero rows). -/
def runFeatures (env : Env) (idf : String) (isPoint : Bool) (ds : String)
    (tsInfo : List (String × TsMeta)) (batches : List (List String)) :
    List Feature → List Request × Except VErr (List Row)
  | [] => ([], Except.ok [])
  | f :: rest =>
    if f.geomEmpty then runFeatures env idf isPoint ds tsInfo batches rest
    else
      match (runBatches env f.geomJson (buildRow isPoint f.fid (inputIdOf idf f) ds tsInfo) batches).2 with
      | Except.error e =>
          ((runBatches env f.geomJson (buildRow isPoint f.fid (inputIdOf idf f) ds tsInfo) batches).1,
           Except.error e)
      | Except.ok rows =>
          ((runBatches env f.geomJson (buildRow isPoint f.fid (inputIdOf idf f) ds tsInfo) batches).1
             ++ (runFeatures env idf isPoint ds tsInfo batches rest).1,
           (runFeatures env idf isPoint ds tsInfo batches rest).2.map (fun rs => rows ++ rs))

/-- The part of the run after a successful catalog fetch
(source lines 250-411). -/
def runAfterCatalog (cfg : RunCfg) (env : Env) : List Request × Except VErr (List Row) :=
  match timestampsVal env.catalogBody with
  | Json.arr (t :: ts) =>
      if (parseTimestamps cfg.startKey cfg.endKey (t :: ts)).1 = [] then
        ([Request.catalog], Except.error VErr.emptyRange)
      else
        (Request.catalog ::
           (runFeatures env (pyStrip cfg.idField) cfg.isPointInput cfg.datasetName
             (parseTimestamps cfg.startKey cfg.endKey (t :: ts)).2
             (_chunk_list (parseTimestamps cfg.startKey cfg.endKey (t :: ts)).1
               MAX_TIMESTAMPS_PER_REQUEST) cfg.selected).1,
         (runFeatures env (pyStrip cfg.idField) cfg.isPointInput cfg.datasetName
             (parseTimestamps cfg.startKey cfg.endKey (t :: ts)).2
             (_chunk_list (parseTimestamps cfg.startKey cfg.endKey (t :: ts)).1
               MAX_TIMESTAMPS_PER_REQUEST) cfg.selected).2)
  | _ => ([Request.catalog], Except.error VErr.noTimestamps)

/-- `VIIRSQuery.processAlgorithm` (source lines 209-411), as a pure
function of the configuration and the network oracle; the first
component is the ordered list of HTTP requests actually issued. -/
def processAlgorithm (cfg : RunCfg) (env : Env) : List Request × Except VErr (List Row) :=
  if cfg.selected.length = 0 then
    ([], Except.error (VErr.invalidSelection cfg.selected.length))
  else if MAX_SELECTED < cfg.selected.length then
    ([], Except.error (VErr.invalidSelection cfg.selected.length))
  else if cfg.startKey > cfg.endKey then
    ([], Except.error VErr.invalidRange)
  else if env.catalogStatus ≠ 200 then
    ([Request.catalog], Except.error (VErr.catalogFetch env.catalogStatus))
  else runAfterCatalog cfg env

/-- The filtered, order-preserved timestamp-id sequence a run works on
(the `ts_ids` of source line 270, as a function of the oracle). -/
def filteredIds (cfg : RunCfg) (env : Env) : List String :=
  match timestampsVal env.catalogBody with
  | Json.arr l => (parseTimestamps cfg.startKey cfg.endKey l).1
  | _ => []

/-- One catalog entry's contribution to `ts_ids` (used to state the
filter property declaratively): skipped when the id is missing or the
from-date does not yield a range key, kept exactly when the key lies in
the inclusive range. -/
def keepTs (sk ek : Int) (ts : Json) : Option String :=
  let key := _yyyymm_from_iso
    (pyStrOrEmpty (Json.get (pyOr (Json.get ts "date") (Json.obj [])) "from"))
  if key = -1 ∨ (Json.get ts "id").isNull then none
  else if sk ≤ key ∧ key ≤ ek then some (pyStr (Json.get ts "id")) else none

/-- The histogram-preference of `_pixel_value_from_statistics`, isolated:
`some b` exactly when the histogram is a nonempty list whose first entry
(after the `or \x7b\x7d` default) is a dict with a non-`None` `bin`. -/
def histFirstBin (stats : Json) : Option Json :=
  match Json.get stats "histogram" with
  | Json.arr (h :: _) =>
      match pyOr h (Json.obj []) with
      | Json.obj kvs =>
          if (Json.get (Json.obj kvs) "bin").isNull then none
          else some (Json.get (Json.obj kvs) "bin")
      | _ => none
  | _ => none

/-- The six zonal statistic column names, in output-schema order
(source lines 294-299). -/
def statKeys : List String := ["min", "max", "mean", "median", "deviation", "sum"]

instance {ε α : Type} [DecidableEq ε] [DecidableEq α] : DecidableEq (Except ε α) :=
  fun x y =>
    match x, y with
    | Except.ok a, Except.ok b =>
        if h : a = b then isTrue (by rw [h])
        else isFalse (by intro he; injection he; contradiction)
    | Except.error a, Except.error b =>
        if h : a = b then isTrue (by rw [h])
        else isFalse (by intro he; injection he; contradiction)
    | Except.ok _, Except.error _ => isFalse (by intro he; exact Except.noConfusion he)
    | Except.error _, Except.ok _ => isFalse (by intro he; exact Except.noConfusion he)

/-- The computed rounding agrees with the textbook formula
`round(100*q)/100` with `round` rounding ties half-up (`⌊x + 1/2⌋`). -/
theorem roundTo2_eq_round (q : ℚ) : roundTo2 q = ((round (q * 100) : ℤ) : ℚ) / 100 := by
  have hden : (0 : ℤ) < (q.den : ℤ) := Int.ofNat_pos.mpr q.pos
  have hq : ((q.den : ℕ) : ℚ) ≠ 0 := by
    exact_mod_cast ne_of_gt hden
  have hnum : q * ((q.den : ℕ) : ℚ) = (q.num : ℚ) := by
    rw [mul_comm]
    calc ((q.den : ℕ) : ℚ) * q = ((q.den : ℕ) : ℚ) * ((q.num : ℚ) / ((q.den : ℕ) : ℚ)) := by
            rw [Rat.num_div_den q]
    _ = (q.num : ℚ) := by field_simp
  have harg : q * 100 + 1 / 2 = ((200 * q.num + (q.den : ℤ) : ℤ) : ℚ) / ((2 * q.den : ℕ) : ℚ) := by
    rw [eq_div_iff (by positivity)]
    push_cast
    calc (q * 100 + 1 / 2) * (2 * (q.den : ℚ))
        = (q * (q.den : ℚ)) * 200 + (q.den : ℚ) := by ring
    _ = (q.num : ℚ) * 200 + (q.den : ℚ) := by rw [hnum]
    _ = 200 * (q.num : ℚ) + (q.den : ℚ) := by ring
  rw [roundTo2, Rat.mkRat_eq_div, round_eq, harg, Rat.floor_intCast_div_natCast,
    Int.fdiv_eq_ediv _ (by positivity)]
  norm_num

/-! ## Batch planner lemmas -/

lemma chunk_slices_join (s : ℕ) (l : List α) (k : ℕ) :
    ((List.range k).map (fun i => (l.drop (i * s)).take s)).flatten = l.take (k * s) := by
  induction k with
  | zero => simp
  | succ k ih =>
      rw [List.range_succ, List.map_append, List.flatten_append, ih]
      rw [Nat.succ_mul, List.take_add]
      simp

lemma chunk50_join (l : List α) : (_chunk_list l 50).flatten = l := by
  have h := chunk_slices_join 50 l ((l.length + 50 - 1) / 50)
  rw [_chunk_list, h]
  have h1 := Nat.div_add_mod (l.length + 50 - 1) 50
  have h2 : (l.length + 50 - 1) % 50 < 50 := Nat.mod_lt _ (by norm_num)
  apply List.take_of_length_le
  omega

lemma chunk50_mem_le (l : List α) (b : List α) (hb : b ∈ _chunk_list l 50) :
    b.length ≤ 50 := by
  rw [_chunk_list] at hb
  obtain ⟨i, _, rfl⟩ := List.mem_map.mp hb
  simp [List.length_take]

lemma chunk50_dropLast_full (l : List α) (b : List α)
    (hb : b ∈ (_chunk_list l 50).dropLast) : b.length = 50 := by
  rw [_chunk_list, ← List.map_dropLast] at hb
  obtain ⟨i, hi, rfl⟩ := List.mem_map.mp hb
  have hik : i < (l.length + 50 - 1) / 50 - 1 := by
    rcases hc : (l.length + 50 - 1) / 50 with _ | m
    · rw [hc] at hi; simp at hi
    · rw [hc, List.range_succ, List.dropLast_concat, List.mem_range] at hi
      omega
  have h1 := Nat.div_add_mod (l.length + 50 - 1) 50
  have h2 : (l.length + 50 - 1) % 50 < 50 := Nat.mod_lt _ (by norm_num)
  simp [List.length_take]
  omega

/-- C1: the Batch Planner with the fixed maximum batch size 50 produces an
ordered sequence of batches whose concatenation is exactly the input id
sequence (each position once, source order preserved), every batch has
length at most 50, and every batch except possibly the last has length
exactly 50. -/
theorem C1_batch_planner (l : List String) :
    (_chunk_list l 50).flatten = l
    ∧ (∀ b ∈ _chunk_list l 50, b.length ≤ 50)
    ∧ (∀ b ∈ (_chunk_list l 50).dropLast, b.length = 50) :=
  ⟨chunk50_join l, fun b hb => chunk50_mem_le l b hb,
   fun b hb => chunk50_dropLast_full l b hb⟩

/-- Witness for C1 at a concrete input: the 120-id sequence is split into
batches of 50, 50 and 20 whose concatenation restores the input. -/
theorem C1_batch_planner_witness :
    ((_chunk_list ((List.range 120).map toString) 50).flatten = (List.range 120).map toString)
    ∧ ((List.range 120).map toString).take 50 ∈ _chunk_list ((List.range 120).map toString) 50
    ∧ (((List.range 120).map toString).take 50).length ≤ 50 := by
  refine ⟨(C1_batch_planner ((List.range 120).map toString)).1, ?_, ?_⟩
  · rw [_chunk_list]
    refine List.mem_map.mpr ⟨0, ?_, by simp⟩
    simp
  · exact (C1_batch_planner ((List.range 120).map toString)).2.1 _ (by
      rw [_chunk_list]
      refine List.mem_map.mpr ⟨0, ?_, by simp⟩
      simp)

/-! ## Rounding helper (C10) -/

/-- C10: the rounding helper is total: `None` input gives `None`, an
input not convertible to a number gives `None`, a convertible input is
converted and rounded to 2 decimal places (so the result is always an
integer number of hundredths), and no input can raise. -/
theorem C10_round2_total :
    _round2 Json.null = none
    ∧ (∀ j : Json, pyToFloat j = none → _round2 j = none)
    ∧ (∀ (j : Json) (q : ℚ), pyToFloat j = some q → _round2 j = some (roundTo2 q))
    ∧ (∀ (j : Json) (q : ℚ), _round2 j = some q → ∃ z : ℤ, q = (z : ℚ) / 100) := by
  refine ⟨rfl, ?_, ?_, ?_⟩
  · intro j h
    simp [_round2, h]
  · intro j q h
    cases j <;> simp_all [_round2, Json.isNull, pyToFloat]
  · intro j q h
    rw [_round2] at h
    rcases hnull : j.isNull with _ | _
    · rw [hnull] at h
      simp only [Bool.false_eq_true, if_false] at h
      rcases hf : pyToFloat j with _ | q0
      · rw [hf] at h; simp at h
      · rw [hf] at h
        simp only [Option.some.injEq] at h
        subst h
        exact ⟨(200 * q0.num + (q0.den : ℤ)).fdiv (2 * (q0.den : ℤ)),
          by rw [roundTo2, Rat.mkRat_eq_div]; norm_num⟩
    · rw [hnull] at h
      simp at h

/-- Witness for C10: a non-numeric string maps to `None`, the number
`7.004` rounds to `7`, and the rounded value is a whole number of
hundredths. -/
theorem C10_round2_total_witness :
    _round2 (Json.str "abc") = none
    ∧ _round2 (Json.num (mkRat 1751 250)) = some 7
    ∧ (∃ z : ℤ, (7 : ℚ) = (z : ℚ) / 100) := by
  refine ⟨C10_round2_total.2.1 (Json.str "abc") (by decide), ?_, ?_⟩
  · exact (C10_round2_total.2.2.1 (Json.num (mkRat 1751 250)) (mkRat 1751 250)
      (by decide)).trans (by decide)
  · exact C10_round2_total.2.2.2 (Json.num (mkRat 1751 250)) 7
      ((C10_round2_total.2.2.1 (Json.num (mkRat 1751 250)) (mkRat 1751 250)
        (by decide)).trans (by decide))

/-! ## Row reduction: hasData handling (C2) -/

/-- Analyse item with `hasData: false` but a fully populated band-1
statistics object: the zonal branch ignores `hasData`. -/
def itemC2 : Json :=
  Json.obj [("hasData", Json.bool false),
    ("timestamp", Json.obj [("id", Json.str "t1")]),
    ("result", Json.arr [Json.obj [("band", Json.obj [("number", Json.num 1)]),
      ("statistics", Json.obj [("min", Json.num 3), ("max", Json.num 4),
        ("mean", Json.num 3), ("median", Json.num 3),
        ("deviation", Json.num 1), ("sum", Json.num 9)])]])]

/-- Counterexample to C2 as stated: for a line/polygon run, an item with
`hasData` false and a band-1 statistics object still gets its six value
columns from the statistics (here `min = 3`), not null. -/
theorem C2_counterexample :
    truthy (Json.get itemC2 "hasData") = false
    ∧ (buildRow false 0 "" "LSTD" [] itemC2).hasData = 0
    ∧ (buildRow false 0 "" "LSTD" [] itemC2).values.head? = some (some 3)
    ∧ (buildRow false 0 "" "LSTD" [] itemC2).values ≠ List.replicate 6 none := by
  refine ⟨by decide, by decide, by decide, by decide⟩

/-- C2 (amended): for a point-geometry run, `hasData` false forces a null
`pixel_value` regardless of any statistics object; for a line/polygon run
the six value columns are computed from the band-1 statistics object
alone, irrespective of `hasData` (null only where the statistics are
absent, falsy or missing the key). -/
theorem C2_hasdata_null (fid : Int) (inputId ds : String)
    (tsInfo : List (String × TsMeta)) (item : Json) :
    (truthy (Json.get item "hasData") = false →
        (buildRow true fid inputId ds tsInfo item).values = [none])
    ∧ (buildRow false fid inputId ds tsInfo item).values
        = statKeys.map (fun k => _round2 (statGet (band1Stats item) k)) := by
  constructor
  · intro h
    simp [buildRow, h]
  · simp [buildRow, statKeys]

/-- Witness for C2's amended statement at the concrete item `itemC2`. -/
theorem C2_hasdata_null_witness :
    (buildRow true 0 "" "LSTD" [] itemC2).values = [none]
    ∧ (buildRow false 0 "" "LSTD" [] itemC2).values
        = statKeys.map (fun k => _round2 (statGet (band1Stats itemC2) k)) :=
  ⟨(C2_hasdata_null 0 "" "LSTD" [] itemC2).1 (by decide),
   (C2_hasdata_null 0 "" "LSTD" [] itemC2).2⟩

/-! ## Row reduction: pixel value preference (C3) -/

/-- Analyse item with `hasData: true` whose band-1 statistics carry a
nonempty histogram whose first entry has no usable `bin`, plus a mean. -/
def itemC3 : Json :=
  Json.obj [("hasData", Json.bool true),
    ("timestamp", Json.obj [("id", Json.str "t1")]),
    ("result", Json.arr [Json.obj [("band", Json.obj [("number", Json.num 1)]),
      ("statistics", Json.obj [("histogram", Json.arr [Json.obj []]),
        ("mean", Json.num 7)])]])]

/-- Counterexample to C3 as stated: the statistics object contains a
histogram list with one entry, yet the emitted `pixel_value` is the
rounded mean `7`, not (the rounding of) the first entry's `bin` value,
because that entry has no non-null `bin`. -/
theorem C3_counterexample :
    Json.get (band1Stats itemC3) "histogram" = Json.arr [Json.obj []]
    ∧ truthy (Json.get itemC3 "hasData") = true
    ∧ (buildRow true 0 "" "LSTD" [] itemC3).values = [some 7]
    ∧ _round2 (Json.get (Json.obj []) "bin") = none := by
  refine ⟨rfl, by decide, by decide, by decide⟩

/-- C3 (amended): for a point run with `hasData` true the emitted value is
the rounding of `_pixel_value_from_statistics`; on a truthy statistics
object that function returns the first histogram entry's `bin` whenever
the histogram is a nonempty list whose first entry is a mapping with a
non-null `bin` (`histFirstBin`), and otherwise the `mean`; a falsy
statistics object yields null; the chosen value is rounded to 2 decimal
places, so `12.345` emits `12.35`. -/
theorem C3_pixel_preference (fid : Int) (inputId ds : String)
    (tsInfo : List (String × TsMeta)) (item : Json) :
    (truthy (Json.get item "hasData") = true →
        (buildRow true fid inputId ds tsInfo item).values
          = [_round2 (_pixel_value_from_statistics (band1Stats item))])
    ∧ (∀ stats : Json, truthy stats = true →
        _pixel_value_from_statistics stats
          = (histFirstBin stats).getD (Json.get stats "mean"))
    ∧ (∀ stats : Json, truthy stats = false →
        _pixel_value_from_statistics stats = Json.null)
    ∧ _round2 (Json.num (12.345 : ℚ)) = some (12.35 : ℚ) := by
  refine ⟨?_, ?_, ?_, ?_⟩
  · intro h
    simp [buildRow, h]
  · intro stats h
    rw [_pixel_value_from_statistics, histFirstBin, h]
    simp only [Bool.true_eq_false, if_false]
    rcases hh : Json.get stats "histogram" with _ | b | q | s | (_ | ⟨h0, t⟩) | kvs <;>
      simp only [hh] <;> try rfl
    generalize pyOr h0 (Json.obj []) = f
    rcases f with _ | b | q | s | l2 | kvs <;> try rfl
    rcases hb : (Json.get (Json.obj kvs) "bin").isNull <;> simp [hb]
  · intro stats h
    rw [_pixel_value_from_statistics, h]
    simp
  · have h1 : (12.345 : ℚ) = mkRat 2469 200 := by norm_num [Rat.mkRat_eq_div]
    have h2 : (12.35 : ℚ) = mkRat 247 20 := by norm_num [Rat.mkRat_eq_div]
    rw [h1, h2]
    decide

/-- Item like `itemC3` but with a usable first histogram bin `12.345`
(written as the exact rational `2469/200`) and a decoy mean. -/
def itemC3w : Json :=
  Json.obj [("hasData", Json.bool true),
    ("timestamp", Json.obj [("id", Json.str "t1")]),
    ("result", Json.arr [Json.obj [("band", Json.obj [("number", Json.num 1)]),
      ("statistics", Json.obj [("histogram", Json.arr [Json.obj [("bin", Json.num (mkRat 2469 200))]]),
        ("mean", Json.num 99)])]])]

/-- Witness for C3's amended statement: with histogram
`[\x7bbin: 12.345\x7d]` the emitted `pixel_value` is `12.35`, regardless
of the mean `99`. -/
theorem C3_pixel_preference_witness :
    (buildRow true 0 "" "LSTD" [] itemC3w).values = [some (12.35 : ℚ)]
    ∧ _pixel_value_from_statistics (band1Stats itemC3w)
        = (histFirstBin (band1Stats itemC3w)).getD (Json.get (band1Stats itemC3w) "mean") := by
  constructor
  · have h := (C3_pixel_preference 0 "" "LSTD" [] itemC3w).1 (by decide)
    rw [h]
    have h2 : (12.35 : ℚ) = mkRat 247 20 := by norm_num [Rat.mkRat_eq_div]
    rw [h2]
    decide
  · exact (C3_pixel_preference 0 "" "LSTD" [] itemC3w).2.1 (band1Stats itemC3w) (by decide)

/-! ## Row reduction: zonal statistics (C7) -/

lemma findBand1_append (pre : List Json) (res : Json) (post : List Json)
    (hpre : ∀ r ∈ pre, isBand1 r = false) (hres : isBand1 res = true) :
    findBand1 (pre ++ res :: post) = pyOr (Json.get res "statistics") (Json.obj []) := by
  induction pre with
  | nil => simp [findBand1, hres]
  | cons p pre ih =>
      have hp : isBand1 p = false := hpre p (List.mem_cons_self p pre)
      simp only [List.cons_append, findBand1, hp, Bool.false_eq_true, if_false]
      exact ih (fun r hr => hpre r (List.mem_cons_of_mem p hr))

/-- C7: for a line/polygon run each of the six statistics is extracted
from the first band-1 statistics object and independently rounded; a
falsy statistics object nulls all six columns; a missing individual key
nulls just that column; the band-1 object is the first match in the
result list; and every response item still produces a row. -/
theorem C7_zonal_statistics (fid : Int) (inputId ds : String)
    (tsInfo : List (String × TsMeta)) (item : Json) :
    ((buildRow false fid inputId ds tsInfo item).values
        = statKeys.map (fun k => _round2 (statGet (band1Stats item) k)))
    ∧ (truthy (band1Stats item) = false →
        (buildRow false fid inputId ds tsInfo item).values = List.replicate 6 none)
    ∧ (∀ k : String, Json.get (band1Stats item) k = Json.null →
        _round2 (statGet (band1Stats item) k) = none)
    ∧ (∀ pre res post, asList (pyOr (Json.get item "result") (Json.arr [])) = pre ++ res :: post →
        (∀ r ∈ pre, isBand1 r = false) → isBand1 res = true →
        band1Stats item = pyOr (Json.get res "statistics") (Json.obj []))
    ∧ (∀ (env : Env) (g : String) (b : List String) (items : List Json),
        env.analyseStatus g b = 200 → env.analyseBody g b = Json.arr items →
        runBatches env g (buildRow false fid inputId ds tsInfo) [b]
          = ([Request.analyse g b], Except.ok (items.map (buildRow false fid inputId ds tsInfo)))) := by
  refine ⟨by simp [buildRow, statKeys], ?_, ?_, ?_, ?_⟩
  · intro h
    simp [buildRow, statGet, h, _round2, Json.isNull, List.replicate]
  · intro k hk
    rcases ht : truthy (band1Stats item) with _ | _
    · simp [statGet, ht, _round2, Json.isNull]
    · simp [statGet, ht, hk, _round2, Json.isNull]
  · intro pre res post heq hpre hres
    rw [band1Stats, heq]
    exact findBand1_append pre res post hpre hres
  · intro env g b items hst hbody
    simp [runBatches, hst, hbody, Except.map]

/-- Band-2 entry that must be skipped by the band-1 scan. -/
def resC7skip : Json :=
  Json.obj [("band", Json.obj [("number", Json.num 2)]),
    ("statistics", Json.obj [("min", Json.num 99)])]

/-- Band-1 entry with a partial statistics object (no `median`). -/
def resC7hit : Json :=
  Json.obj [("band", Json.obj [("number", Json.num 1)]),
    ("statistics", Json.obj [("min", Json.num 1), ("max", Json.str "oops"),
      ("mean", Json.null), ("deviation", Json.num 2), ("sum", Json.num 50)])]

/-- Analyse item for the C7 witness. -/
def itemC7 : Json :=
  Json.obj [("hasData", Json.bool true),
    ("timestamp", Json.obj [("id", Json.str "t9")]),
    ("result", Json.arr [resC7skip, resC7hit])]

/-- Witness for C7 at `itemC7`: the scan skips the band-2 entry, the
missing `median` key yields a null column, and the values row follows the
six-key extraction formula. -/
theorem C7_zonal_statistics_witness :
    band1Stats itemC7 = pyOr (Json.get resC7hit "statistics") (Json.obj [])
    ∧ _round2 (statGet (band1Stats itemC7) "median") = none
    ∧ (buildRow false 0 "" "NDVI" [] itemC7).values
        = statKeys.map (fun k => _round2 (statGet (band1Stats itemC7) k)) := by
  refine ⟨?_, ?_, (C7_zonal_statistics 0 "" "NDVI" [] itemC7).1⟩
  · refine (C7_zonal_statistics 0 "" "NDVI" [] itemC7).2.2.2.1 [resC7skip] resC7hit [] rfl ?_ (by decide)
    intro r hr
    have : r = resC7skip := by simpa using hr
    rw [this]
    decide
  · exact (C7_zonal_statistics 0 "" "NDVI" [] itemC7).2.2.1 "median" rfl

/-! ## Row reduction: unknown timestamp ids (C9) -/

/-- C9: an analyse item whose timestamp id is not in the filtered
catalog's descriptive index still yields a row, with empty strings in the
`date_from`, `date_to` and `description` columns. -/
theorem C9_unknown_timestamp (isPoint : Bool) (fid : Int) (inputId ds : String)
    (tsInfo : List (String × TsMeta)) (item : Json)
    (h : dictGetLast tsInfo (tsIdOf item) = none) :
    (buildRow isPoint fid inputId ds tsInfo item).date_from = ""
    ∧ (buildRow isPoint fid inputId ds tsInfo item).date_to = ""
    ∧ (buildRow isPoint fid inputId ds tsInfo item).description = ""
    ∧ (buildRow isPoint fid inputId ds tsInfo item).timestampId = tsIdOf item
    ∧ (∀ (env : Env) (g : String) (b : List String),
        env.analyseStatus g b = 200 → env.analyseBody g b = Json.arr [item] →
        (runBatches env g (buildRow isPoint fid inputId ds tsInfo) [b]).2
          = Except.ok [buildRow isPoint fid inputId ds tsInfo item]) := by
  refine ⟨by simp [buildRow, h], by simp [buildRow, h], by simp [buildRow, h],
    by simp [buildRow], ?_⟩
  intro env g b hst hbody
  simp [runBatches, hst, hbody, Except.map]

/-- Analyse item whose timestamp id `ghost` is absent from the index. -/
def itemC9 : Json :=
  Json.obj [("hasData", Json.bool false),
    ("timestamp", Json.obj [("id", Json.str "ghost")]),
    ("result", Json.arr [])]

/-- A one-entry descriptive index that does not know `ghost`. -/
def tsInfoC9 : List (String × TsMeta) :=
  [("known", ⟨"2020-05-01", "2020-06-01", "May slice"⟩)]

/-- Witness for C9: the `ghost` row is emitted with empty descriptive
columns. -/
theorem C9_unknown_timestamp_witness :
    (buildRow true 0 "" "EVI" tsInfoC9 itemC9).date_from = ""
    ∧ (buildRow true 0 "" "EVI" tsInfoC9 itemC9).date_to = ""
    ∧ (buildRow true 0 "" "EVI" tsInfoC9 itemC9).description = ""
    ∧ (buildRow true 0 "" "EVI" tsInfoC9 itemC9).timestampId = tsIdOf itemC9 := by
  have h := C9_unknown_timestamp true 0 "" "EVI" tsInfoC9 itemC9 (by decide)
  exact ⟨h.1, h.2.1, h.2.2.1, h.2.2.2.1⟩

/-! ## Run-level lemmas -/

lemma runBatches_err (env : Env) (g : String) (mk : Json → Row) :
    ∀ (batches : List (List String)) (e : VErr),
      (runBatches env g mk batches).2 = Except.error e →
      (∃ st, e = VErr.analyseFailed st) ∨ e = VErr.malformedResponse := by
  intro batches
  induction batches with
  | nil => intro e he; simp [runBatches] at he
  | cons b rest ih =>
      intro e he
      rw [runBatches] at he
      split at he
      · simp at he
        exact Or.inl ⟨_, he.symm⟩
      · split at he
        · rcases htail : (runBatches env g mk rest).2 with e2 | rows2
          · rw [htail] at he
            simp [Except.map] at he
            exact he ▸ ih e2 htail
          · rw [htail] at he
            simp [Except.map] at he
        · simp at he
          exact Or.inr he.symm

lemma runFeatures_err (env : Env) (idf : String) (isPoint : Bool) (ds : String)
    (tsInfo : List (String × TsMeta)) (batches : List (List String)) :
    ∀ (feats : List Feature) (e : VErr),
      (runFeatures env idf isPoint ds tsInfo batches feats).2 = Except.error e →
      (∃ st, e = VErr.analyseFailed st) ∨ e = VErr.malformedResponse := by
  intro feats
  induction feats with
  | nil => intro e he; simp [runFeatures] at he
  | cons f rest ih =>
      intro e he
      rw [runFeatures] at he
      split at he
      · exact ih e he
      · split at he
        · rename_i e2 hr
          simp at he
          exact he ▸ runBatches_err env f.geomJson _ batches e2 hr
        · rcases htail : (runFeatures env idf isPoint ds tsInfo batches rest).2 with e2 | rows2
          · rw [htail] at he
            simp [Except.map] at he
            exact he ▸ ih e2 htail
          · rw [htail] at he
            simp [Except.map] at he

lemma runAfterCatalog_err (cfg : RunCfg) (env : Env) (e : VErr)
    (he : (runAfterCatalog cfg env).2 = Except.error e) :
    e = VErr.noTimestamps ∨ e = VErr.emptyRange
    ∨ (∃ st, e = VErr.analyseFailed st) ∨ e = VErr.malformedResponse := by
  rw [runAfterCatalog] at he
  split at he
  · split at he
    · simp at he
      exact Or.inr (Or.inl he.symm)
    · simp at he
      exact Or.inr (Or.inr (runFeatures_err _ _ _ _ _ _ _ e he))
  · simp at he
    exact Or.inl he.symm

/-! ## Invalid range short-circuit (C5) -/

/-- C5: with a valid selection, a resolved range with
`start_key > end_key` aborts the run with the invalid-range error and an
empty request trace — in particular the catalog fetch is never issued. -/
theorem C5_invalid_range_before_network (cfg : RunCfg) (env : Env)
    (h1 : 1 ≤ cfg.selected.length) (h2 : cfg.selected.length ≤ MAX_SELECTED)
    (h3 : cfg.startKey > cfg.endKey) :
    processAlgorithm cfg env = ([], Except.error VErr.invalidRange) := by
  rw [processAlgorithm, if_neg (by omega), if_neg (by rw [MAX_SELECTED] at h2 ⊢; omega),
    if_pos h3]

/-- A 3-feature configuration whose month range is inverted. -/
def cfgC5 : RunCfg :=
  { selected := [{ fid := 1, idAttr := Json.null, geomEmpty := false, geomJson := "g1" },
                 { fid := 2, idAttr := Json.null, geomEmpty := false, geomJson := "g2" },
                 { fid := 3, idAttr := Json.null, geomEmpty := false, geomJson := "g3" }],
    idField := "", isPointInput := true, datasetName := "LSTD",
    startKey := 202012, endKey := 202001 }

/-- An oracle that would answer every request, unused by the witness run. -/
def envC5 : Env :=
  { catalogStatus := 200, catalogBody := Json.obj [], analyseStatus := fun _ _ => 200,
    analyseBody := fun _ _ => Json.arr [] }

/-- Witness for C5: the inverted range of December to January 2020 fails
with no request issued. -/
theorem C5_invalid_range_before_network_witness :
    processAlgorithm cfgC5 envC5 = ([], Except.error VErr.invalidRange) :=
  C5_invalid_range_before_network cfgC5 envC5 (by decide) (by decide) (by decide)

/-! ## Selection-count gate (C8) -/

/-- C8: zero selected features or more than five raise the
invalid-selection error with no request issued; a selection of one to
five features never produces that error, whatever the network returns. -/
theorem C8_selection_gate (cfg : RunCfg) (env : Env) :
    (cfg.selected.length = 0 →
        processAlgorithm cfg env = ([], Except.error (VErr.invalidSelection 0)))
    ∧ (MAX_SELECTED < cfg.selected.length →
        processAlgorithm cfg env
          = ([], Except.error (VErr.invalidSelection cfg.selected.length)))
    ∧ (1 ≤ cfg.selected.length → cfg.selected.length ≤ MAX_SELECTED →
        ∀ m : Nat, (processAlgorithm cfg env).2 ≠ Except.error (VErr.invalidSelection m)) := by
  refine ⟨?_, ?_, ?_⟩
  · intro h
    rw [processAlgorithm, if_pos h, h]
  · intro h
    rw [processAlgorithm, if_neg (by omega), if_pos h]
  · intro h1 h2 m hcon
    rw [MAX_SELECTED] at h2
    rw [processAlgorithm, if_neg (by omega), if_neg (by rw [MAX_SELECTED]; omega)] at hcon
    split at hcon
    · simp at hcon
    · split at hcon
      · simp at hcon
      · rcases runAfterCatalog_err cfg env _ hcon with h | h | ⟨st, h⟩ | h <;> simp at h

/-- Five point features for the C8 witness. -/
def cfgC8 : RunCfg :=
  { selected := [{ fid := 1, idAttr := Json.null, geomEmpty := false, geomJson := "g1" },
                 { fid := 2, idAttr := Json.null, geomEmpty := false, geomJson := "g2" },
                 { fid := 3, idAttr := Json.null, geomEmpty := false, geomJson := "g3" },
                 { fid := 4, idAttr := Json.null, geomEmpty := false, geomJson := "g4" },
                 { fid := 5, idAttr := Json.null, geomEmpty := false, geomJson := "g5" }],
    idField := "", isPointInput := true, datasetName := "LSTD",
    startKey := 202001, endKey := 202012 }

/-- Same configuration with no feature selected. -/
def cfgC8none : RunCfg :=
  { selected := [], idField := "", isPointInput := true, datasetName := "LSTD",
    startKey := 202001, endKey := 202012 }

/-- Witness for C8: zero features fail, five features pass the gate. -/
theorem C8_selection_gate_witness :
    processAlgorithm cfgC8none envC5 = ([], Except.error (VErr.invalidSelection 0))
    ∧ (processAlgorithm cfgC8 envC5).2 ≠ Except.error (VErr.invalidSelection 5) :=
  ⟨(C8_selection_gate cfgC8none envC5).1 (by decide),
   (C8_selection_gate cfgC8 envC5).2.2 (by decide) (by decide) 5⟩

/-! ## Timestamp catalog filter (C4) -/

lemma parse_eq_filterMap (sk ek : Int) :
    ∀ tss : List Json, (parseTimestamps sk ek tss).1 = tss.filterMap (keepTs sk ek) := by
  intro tss
  induction tss with
  | nil => rfl
  | cons ts rest ih =>
      simp only [parseTimestamps, keepTs, List.filterMap_cons]
      split
      · exact ih
      · split
        · simpa using ih
        · exact ih

/-- C4: the catalog filter loop retains exactly (as a `filterMap`, hence
in source order, each entry at most once) the entries with a present id
and a parseable from-date whose range key lies in `[start_key, end_key]`;
entries with a missing id or an unparseable date are skipped silently;
a response without a nonempty timestamp list fails with the
no-timestamps error, and a nonempty list whose filter comes up empty
fails with the empty-range error, in both cases after the single catalog
request. -/
theorem C4_catalog_filter :
    (∀ (sk ek : Int) (entries : List (List (String × Json))),
        (parseTimestamps sk ek (entries.map Json.obj)).1
          = (entries.map Json.obj).filterMap (keepTs sk ek))
    ∧ (∀ (sk ek : Int) (ts : Json),
        (Json.get ts "id").isNull = true
          ∨ _yyyymm_from_iso (pyStrOrEmpty (Json.get (pyOr (Json.get ts "date") (Json.obj [])) "from")) = -1 →
        keepTs sk ek ts = none)
    ∧ (∀ (cfg : RunCfg) (env : Env),
        1 ≤ cfg.selected.length → cfg.selected.length ≤ MAX_SELECTED →
        ¬cfg.startKey > cfg.endKey → env.catalogStatus = 200 →
        (∀ t l, timestampsVal env.catalogBody ≠ Json.arr (t :: l)) →
        processAlgorithm cfg env = ([Request.catalog], Except.error VErr.noTimestamps))
    ∧ (∀ (cfg : RunCfg) (env : Env) (t : Json) (l : List Json),
        1 ≤ cfg.selected.length → cfg.selected.length ≤ MAX_SELECTED →
        ¬cfg.startKey > cfg.endKey → env.catalogStatus = 200 →
        timestampsVal env.catalogBody = Json.arr (t :: l) →
        (parseTimestamps cfg.startKey cfg.endKey (t :: l)).1 = [] →
        processAlgorithm cfg env = ([Request.catalog], Except.error VErr.emptyRange)) := by
  refine ⟨fun sk ek entries => parse_eq_filterMap sk ek (entries.map Json.obj), ?_, ?_, ?_⟩
  · intro sk ek ts h
    rw [keepTs]
    rcases h with h | h
    · rw [if_pos (Or.inr h)]
    · rw [if_pos (Or.inl h)]
  · intro cfg env h1 h2 h3 h4 hts
    rw [MAX_SELECTED] at h2
    rw [processAlgorithm, if_neg (by omega), if_neg (by rw [MAX_SELECTED]; omega),
      if_neg h3, if_neg (by omega), runAfterCatalog]
    split
    · rename_i t l heq
      exact absurd heq (hts t l)
    · rfl
  · intro cfg env t l h1 h2 h3 h4 hts hemp
    rw [MAX_SELECTED] at h2
    rw [processAlgorithm, if_neg (by omega), if_neg (by rw [MAX_SELECTED]; omega),
      if_neg h3, if_neg (by omega), runAfterCatalog]
    split
    · rename_i t2 l2 heq
      rw [hts] at heq
      have ht2 : t2 = t ∧ l2 = l := by
        have := Json.arr.inj heq
        exact ⟨(List.cons.inj this).1.symm, (List.cons.inj this).2.symm⟩
      rw [ht2.1, ht2.2, if_pos hemp]
    · rename_i hne
      exact absurd hts (hne t l)

/-- Catalog entry in range (May 2020). -/
def tsGood : List (String × Json) :=
  [("id", Json.str "good"),
   ("date", Json.obj [("from", Json.str "2020-05-01T00:00:00.000Z"),
                      ("to", Json.str "2020-06-01T00:00:00.000Z")]),
   ("description", Json.str "ok")]

/-- Catalog entry with no id (skipped silently). -/
def tsNoId : List (String × Json) :=
  [("date", Json.obj [("from", Json.str "2020-05-01T00:00:00.000Z")])]

/-- Catalog entry with an unparseable from-date (skipped silently). -/
def tsBadDate : List (String × Json) :=
  [("id", Json.str "bad"), ("date", Json.obj [("from", Json.str "not a date")])]

/-- Catalog entry outside the queried range (March 2019). -/
def tsOutOfRange : List (String × Json) :=
  [("id", Json.str "early"),
   ("date", Json.obj [("from", Json.str "2019-03-01T00:00:00.000Z")])]

/-- Oracle whose catalog has a `raster` node but no timestamp list. -/
def envC4noTs : Env :=
  { catalogStatus := 200, catalogBody := Json.obj [("raster", Json.obj [])],
    analyseStatus := fun _ _ => 200, analyseBody := fun _ _ => Json.arr [] }

/-- Oracle whose only timestamp lies outside the queried range. -/
def envC4empty : Env :=
  { catalogStatus := 200,
    catalogBody := Json.obj [("raster", Json.obj [("timestamps",
      Json.arr [Json.obj tsOutOfRange])])],
    analyseStatus := fun _ _ => 200, analyseBody := fun _ _ => Json.arr [] }

/-- One point feature querying all of 2020. -/
def cfgC4 : RunCfg :=
  { selected := [{ fid := 1, idAttr := Json.null, geomEmpty := false, geomJson := "g1" }],
    idField := "", isPointInput := true, datasetName := "LSTD",
    startKey := 202001, endKey := 202012 }

/-- Witness for C4: the four-entry catalog keeps exactly `good`; a
missing list raises the no-timestamps error; an all-filtered list raises
the empty-range error. -/
theorem C4_catalog_filter_witness :
    (parseTimestamps 202001 202012 ([tsGood, tsNoId, tsBadDate, tsOutOfRange].map Json.obj)).1
        = ([tsGood, tsNoId, tsBadDate, tsOutOfRange].map Json.obj).filterMap (keepTs 202001 202012)
    ∧ (parseTimestamps 202001 202012 ([tsGood, tsNoId, tsBadDate, tsOutOfRange].map Json.obj)).1
        = ["good"]
    ∧ processAlgorithm cfgC4 envC4noTs = ([Request.catalog], Except.error VErr.noTimestamps)
    ∧ processAlgorithm cfgC4 envC4empty = ([Request.catalog], Except.error VErr.emptyRange) := by
  refine ⟨C4_catalog_filter.1 202001 202012 [tsGood, tsNoId, tsBadDate, tsOutOfRange],
    by decide, ?_, ?_⟩
  · refine C4_catalog_filter.2.2.1 cfgC4 envC4noTs (by decide) (by decide) (by decide) rfl ?_
    intro t l hts
    rw [show timestampsVal envC4noTs.catalogBody = Json.arr [] from rfl] at hts
    exact List.noConfusion (Json.arr.inj hts)
  · exact C4_catalog_filter.2.2.2 cfgC4 envC4empty (Json.obj tsOutOfRange) []
      (by decide) (by decide) (by decide) rfl rfl (by decide)

/-! ## Request counting (C6) -/

lemma chunk50_count (l : List α) :
    (_chunk_list l 50).length = (l.length + 50 - 1) / 50 := by
  simp [_chunk_list]

lemma runBatches_ok_count (env : Env) (g : String) (mk : Json → Row) :
    ∀ (batches : List (List String)) (rows : List Row),
      (runBatches env g mk batches).2 = Except.ok rows →
      (runBatches env g mk batches).1.length = batches.length := by
  intro batches
  induction batches with
  | nil => intro rows _; rfl
  | cons b rest ih =>
      intro rows hok
      by_cases hst : env.analyseStatus g b ≠ 200
      · rw [runBatches, if_pos hst] at hok
        simp at hok
      · rw [runBatches, if_neg hst] at hok ⊢
        rcases hbody : env.analyseBody g b with _ | b2 | q | s | items | kvs <;>
          simp only [hbody] at hok ⊢ <;> try simp at hok
        rcases htail : (runBatches env g mk rest).2 with e | rows2
        · rw [htail] at hok
          simp [Except.map] at hok
        · simp [ih rows2 htail]

lemma runFeatures_ok_count (env : Env) (idf : String) (isPoint : Bool) (ds : String)
    (tsInfo : List (String × TsMeta)) (batches : List (List String)) :
    ∀ (feats : List Feature) (rows : List Row),
      (∀ f ∈ feats, f.geomEmpty = false) →
      (runFeatures env idf isPoint ds tsInfo batches feats).2 = Except.ok rows →
      (runFeatures env idf isPoint ds tsInfo batches feats).1.length
        = feats.length * batches.length := by
  intro feats
  induction feats with
  | nil => intro rows _ _; simp [runFeatures]
  | cons f rest ih =>
      intro rows hgeom hok
      have hf : f.geomEmpty = false := hgeom f (List.mem_cons_self f rest)
      rw [runFeatures, if_neg (by rw [hf]; exact Bool.false_ne_true)] at hok ⊢
      rcases hr : (runBatches env f.geomJson (buildRow isPoint f.fid (inputIdOf idf f) ds tsInfo) batches).2
        with e | rows1 <;> simp only [hr] at hok ⊢
      · simp at hok
      · rcases htail : (runFeatures env idf isPoint ds tsInfo batches rest).2 with e | rows2
        · rw [htail] at hok
          simp [Except.map] at hok
        · have h1 := runBatches_ok_count env f.geomJson
            (buildRow isPoint f.fid (inputIdOf idf f) ds tsInfo) batches rows1 hr
          have h2 := ih rows2 (fun x hx => hgeom x (List.mem_cons_of_mem f hx)) htail
          simp only [List.length_append, h1, h2, List.length_cons, Nat.succ_mul]
          exact Nat.add_comm _ _

/-- Configuration with a single selected feature whose geometry is
empty: the feature loop skips it, issuing no analyse request. -/
def cfgC6bad : RunCfg :=
  { selected := [{ fid := 1, idAttr := Json.null, geomEmpty := true, geomJson := "g" }],
    idField := "", isPointInput := true, datasetName := "LSTD",
    startKey := 202001, endKey := 202012 }

/-- Oracle with exactly one in-range timestamp. -/
def envC6 : Env :=
  { catalogStatus := 200,
    catalogBody := Json.obj [("raster", Json.obj [("timestamps",
      Json.arr [Json.obj [("id", Json.str "t1"),
        ("date", Json.obj [("from", Json.str "2020-05-01T00:00:00.000Z")])]])])],
    analyseStatus := fun _ _ => 200, analyseBody := fun _ _ => Json.arr [] }

/-- Counterexample to C6 as stated: a successful run with `n = 1`
selected feature (whose geometry is empty) and `t = 1` filtered
timestamp issues only the single catalog request, not
`1 + 1 * ceil(1/50) = 2`. -/
theorem C6_counterexample :
    (processAlgorithm cfgC6bad envC6).2 = Except.ok []
    ∧ cfgC6bad.selected.length = 1
    ∧ (filteredIds cfgC6bad envC6).length = 1
    ∧ (processAlgorithm cfgC6bad envC6).1.length = 1
    ∧ (1 : Nat) ≠ 1 + 1 * ((1 + 50 - 1) / 50) := by
  exact ⟨by decide, by decide, by decide, by decide, by decide⟩

/-- C6 (amended): for every successful run whose selected features all
have non-empty geometry, the issued requests number exactly
`1 (catalog) + n * ceil(t/50)` where `n` is the selected-feature count
and `t` the filtered timestamp count. -/
theorem C6_request_count (cfg : RunCfg) (env : Env) (rows : List Row)
    (h1 : 1 ≤ cfg.selected.length) (h2 : cfg.selected.length ≤ MAX_SELECTED)
    (hgeom : ∀ f ∈ cfg.selected, f.geomEmpty = false)
    (hok : (processAlgorithm cfg env).2 = Except.ok rows) :
    (processAlgorithm cfg env).1.length
      = 1 + cfg.selected.length * (((filteredIds cfg env).length + 50 - 1) / 50) := by
  rw [MAX_SELECTED] at h2
  rw [processAlgorithm, if_neg (by omega), if_neg (by rw [MAX_SELECTED]; omega)] at hok ⊢
  by_cases h3 : cfg.startKey > cfg.endKey
  · rw [if_pos h3] at hok
    simp at hok
  rw [if_neg h3] at hok ⊢
  by_cases h4 : env.catalogStatus ≠ 200
  · rw [if_pos h4] at hok
    simp at hok
  rw [if_neg h4] at hok ⊢
  rw [runAfterCatalog] at hok ⊢
  rw [filteredIds]
  rcases hts : timestampsVal env.catalogBody with _ | b | q | s | (_ | ⟨t, ts⟩) | kvs
  · simp only [hts] at hok; simp at hok
  · simp only [hts] at hok; simp at hok
  · simp only [hts] at hok; simp at hok
  · simp only [hts] at hok; simp at hok
  · simp only [hts] at hok; simp at hok
  · simp only [hts] at hok ⊢
    by_cases hemp : (parseTimestamps cfg.startKey cfg.endKey (t :: ts)).1 = []
    · rw [if_pos hemp] at hok
      simp at hok
    · rw [if_neg hemp] at hok ⊢
      simp only [] at hok
      have hcnt := runFeatures_ok_count env (pyStrip cfg.idField) cfg.isPointInput
        cfg.datasetName (parseTimestamps cfg.startKey cfg.endKey (t :: ts)).2
        (_chunk_list (parseTimestamps cfg.startKey cfg.endKey (t :: ts)).1
          MAX_TIMESTAMPS_PER_REQUEST)
        cfg.selected rows hgeom hok
      simp only [MAX_TIMESTAMPS_PER_REQUEST] at hcnt ⊢
      simp only [chunk50_count] at hcnt
      simp only [List.length_cons, hcnt]
      omega
  · simp only [hts] at hok; simp at hok

/-- A point feature with non-empty geometry for the C6 witness. -/
def featC6 : Feature :=
  { fid := 1, idAttr := Json.null, geomEmpty := false, geomJson := "g" }

/-- Oracle whose catalog has 120 in-range timestamps and whose analyse
endpoint answers every request with an empty list. -/
def envC6w : Env :=
  { catalogStatus := 200,
    catalogBody := Json.obj [("raster", Json.obj [("timestamps",
      Json.arr (List.replicate 120 (Json.obj [("id", Json.str "t"),
        ("date", Json.obj [("from", Json.str "2020-05-01T00:00:00.000Z")])])))])],
    analyseStatus := fun _ _ => 200, analyseBody := fun _ _ => Json.arr [] }

/-- Five features, whole of 2020. -/
def cfgC6w : RunCfg :=
  { selected := List.replicate 5 featC6, idField := "", isPointInput := true,
    datasetName := "LSTD", startKey := 202001, endKey := 202012 }

set_option maxRecDepth 80000 in
/-- Witness for C6's amended statement: 5 features over 120 matching
timestamps issue 16 requests in total — the catalog fetch plus
`5 * ceil(120/50) = 15` analyse calls. -/
theorem C6_request_count_witness :
    (filteredIds cfgC6w envC6w).length = 120
    ∧ (processAlgorithm cfgC6w envC6w).1.length
        = 1 + cfgC6w.selected.length * (((filteredIds cfgC6w envC6w).length + 50 - 1) / 50)
    ∧ (processAlgorithm cfgC6w envC6w).1.length = 16 := by
  have hgeom : ∀ f ∈ cfgC6w.selected, f.geomEmpty = false := by
    intro f hf
    rw [List.eq_of_mem_replicate hf]
    decide
  have h := C6_request_count cfgC6w envC6w [] (by decide) (by decide) hgeom (by decide)
  exact ⟨by decide, h, h.trans (by decide)⟩

end VIIRS
